import Mathlib

/-!
Shallow embedding of the Trace Aggregation & Statistics Pipeline of
`scripts/trace.py` (and the orchestration shape shared with
`scripts/benchmark.py`).

Machine integers in the traces are Python ints coming from `array('Q')`
buffers (non-negative), modelled as `Nat`; Python's floor division `//`
on non-negative ints coincides with `Nat` division.

Two models of `analyze_traces` appear below:

* a *strict* model (`analyze_traces_strict`) that follows the Python
  name-resolution semantics of the file exactly: the module never imports
  `array`, so the first `cycle_data[name]` access raises
  `NameError('array')`, and the row writer references the undefined
  `sorted_cycles`;

* a *fixed* model (`rowFor` / `analyze_traces_fixed`) of the statistics
  and report-writing logic at lines 44-103 with those two undefined
  names resolved the only way the surrounding code permits (`array('Q')`
  as a growable integer buffer, i.e. a list of `Nat`; `sorted_cycles` as
  the `cycle_list` built two lines above its first use).  All row-level
  statistics claims are settled against this model.
-/

/-- A decoded telemetry artifact: the JSON object mapping counter name to
its ordered sequence of `(cycles, gas)` observation pairs, as produced by
`json.load` in `analyze_traces`. -/
abbrev Artifact := List (String × List (Nat × Nat))

/-- Ascending sort of a list of naturals; models Python's `sorted` on the
integer buffers. -/
def sortNat (l : List Nat) : List Nat :=
  List.insertionSort (· ≤ ·) l

/-- Model of `cpg_list`, line 81: `sorted(c // g for c, g in zip(cycle_arr, gas_arr) if g > 0)`.
The `cycle_data[name]` / `gas_data[name]` buffers are appended in lockstep,
so the zipped pairs are exactly the counter's observation series. -/
def cpg_list (s : List (Nat × Nat)) : List Nat :=
  sortNat ((s.filter (fun p => 0 < p.2)).map (fun p => p.1 / p.2))

/-- Model of `cycle_list`, line 82: `sorted(cycle_arr)`. -/
def cycle_list (s : List (Nat × Nat)) : List Nat :=
  sortNat (s.map Prod.fst)

/-- Model of `sum(cycle_arr)`, line 100. -/
def total_cycles (s : List (Nat × Nat)) : Nat :=
  (s.map Prod.fst).sum

/-- The inner helper of lines 84-87:
`(s[mid - 1] + s[mid]) // 2 if n % 2 == 0 else s[mid]` with `mid = n // 2`. -/
def median_sorted (s : List Nat) : Nat :=
  let n := s.length
  let mid := n / 2
  if n % 2 = 0 then (s.getD (mid - 1) 0 + s.getD mid 0) / 2 else s.getD mid 0

/-- Python exceptions that the modelled code can raise. -/
inductive PyErr : Type where
  /-- A `NameError` on the given undefined identifier. -/
  | nameError (ident : String)
  /-- An `IndexError` from subscripting an empty sequence. -/
  | indexError
  /-- decompression failure in `gzip.open`/read. -/
  | gzipError
  /-- A `json.load` failure or a payload that is not a mapping of names to
  sequences of 2-tuples of non-negative integers. -/
  | jsonError
  deriving DecidableEq, Repr

/-- Sequential effectful map over `Except`: the per-element loop of the
analysis and decode stages, stopping at the first raised exception. -/
def mapE {A B : Type} (f : A -> Except PyErr B) : List A -> Except PyErr (List B)
  | [] => .ok []
  | x :: xs =>
    match f x with
    | .error e => .error e
    | .ok y =>
      match mapE f xs with
      | .error e => .error e
      | .ok ys => .ok (y :: ys)

/-- One data row of the trace report (lines 91-103): the cells
`name, count, min cpg, median cpg, max cpg, min cycles, median cycles,
max cycles, total cycles`.  `none` in a cpg cell renders as the
`"N/A"` sentinel of line 89. -/
structure Row : Type where
  name : String
  count : Nat
  cpgMin : Option Nat
  cpgMed : Option Nat
  cpgMax : Option Nat
  cycMin : Nat
  cycMed : Nat
  cycMax : Nat
  totalCycles : Nat
  deriving DecidableEq, Repr

/-- The summary row computation of lines 77-103 for one counter, on the
fixed model (`sorted_cycles` resolved to `cycle_list`).  `count` is
`len(cycle_arr)` (line 93).  The cpg triple is
`(cpg_list[0], median_sorted(cpg_list), cpg_list[-1])` when `cpg_list` is
non-empty and the `"N/A"` sentinels otherwise (line 89).  The cycle cells
subscript the sorted cycle list; when the counter's series is empty the
subscript `[0]` raises `IndexError`, so the row writer fails instead of
omitting the row. -/
def rowFor (name : String) (s : List (Nat × Nat)) : Except PyErr Row :=
  let cpg := cpg_list s
  let cyc := cycle_list s
  let cpgStats : Option Nat × Option Nat × Option Nat :=
    if cpg = [] then (none, none, none)
    else (some (cpg.getD 0 0), some (median_sorted cpg), some (cpg.getLastD 0))
  if cyc = [] then .error .indexError
  else .ok
    { name := name
      count := s.length
      cpgMin := cpgStats.1
      cpgMed := cpgStats.2.1
      cpgMax := cpgStats.2.2
      cycMin := cyc.getD 0 0
      cycMed := median_sorted cyc
      cycMax := cyc.getLastD 0
      totalCycles := total_cycles s }

/-- The `defaultdict` key creation order: a name is appended on first sight. -/
def insertName (acc : List String) (n : String) : List String :=
  if n ∈ acc then acc else acc ++ [n]

/-- Iteration order of `for name in cycle_data` (line 77): Python dicts
iterate in insertion order, and `cycle_data[name]` is touched (creating the
key) for every item of every trace, in merge order, even when the item's
entry list is empty (lines 49-52). -/
def namesOrder (arts : List Artifact) : List String :=
  arts.foldl (fun acc a => a.foldl (fun acc p => insertName acc p.1) acc) []

/-- The accumulated observation series of one counter after merging the
given artifacts in order: entries are appended artifact by artifact
(lines 49-57), so the series is the concatenation of the counter's entry
lists in merge order. -/
def seriesOf (arts : List Artifact) (name : String) : List (Nat × Nat) :=
  arts.flatMap (fun a => a.flatMap (fun p => if p.1 = name then p.2 else []))

/-- The data rows of the report, in emission order, on the fixed model:
one `rowFor` per accumulated counter, iterated in dict insertion order.
The first failing row aborts the writer with its exception. -/
def analyze_traces_fixed (arts : List Artifact) : Except PyErr (List Row) :=
  mapE (fun n => rowFor n (seriesOf arts n)) (namesOrder arts)

/-- The header row of line 64-75. -/
def headerRow : List String :=
  ["name", "count", "min cpg", "median cpg", "max cpg",
   "min cycles", "median cycles", "max cycles", "total cycles"]

/-- Strict semantics of one loop item `cycles = cycle_data[name]`
(line 52): if the key is new, the `defaultdict` factory runs
`array('Q')`, and `array` is an undefined name (never imported), so the
access raises `NameError('array')`; an existing key would return its
buffer. -/
def loadItemStrict (acc : List String) (p : String × List (Nat × Nat)) :
    Except PyErr (List String) :=
  if p.1 ∈ acc then .ok acc else .error (.nameError "array")

/-- Strict semantics of the loading loop over one decoded trace
(lines 49-57). -/
def loadArtifactStrict (acc : List String) (a : Artifact) :
    Except PyErr (List String) :=
  a.foldlM loadItemStrict acc

/-- Strict model of `analyze_traces` (lines 41-103) on already-decoded
traces, producing the full CSV content (header row then data rows) or the
first uncaught exception.  After the loading loop the header is written,
then one row per accumulated counter; the row writer references the
undefined name `sorted_cycles` (lines 97-99), so writing any data row
raises `NameError('sorted_cycles')` (a branch that is in fact unreachable,
since accumulating any counter already raised `NameError('array')`). -/
def analyze_traces_strict (arts : List Artifact) :
    Except PyErr (List (List String)) :=
  match arts.foldlM loadArtifactStrict [] with
  | .error e => .error e
  | .ok acc =>
    match mapE (fun _ => (.error (.nameError "sorted_cycles") :
        Except PyErr (List String))) acc with
    | .error e => .error e
    | .ok rows => .ok (headerRow :: rows)

/-! ## Helper lemmas -/

deriving instance DecidableEq for Except

theorem sortNat_perm (l : List Nat) : (sortNat l).Perm l :=
  List.perm_insertionSort _ l

theorem sortNat_sorted (l : List Nat) : List.Sorted (· ≤ ·) (sortNat l) :=
  List.sorted_insertionSort _ l

theorem sortNat_eq_of_perm {l1 l2 : List Nat} (h : l1.Perm l2) :
    sortNat l1 = sortNat l2 :=
  List.eq_of_perm_of_sorted
    ((sortNat_perm l1).trans (h.trans (sortNat_perm l2).symm))
    (sortNat_sorted l1) (sortNat_sorted l2)

theorem cpg_list_congr_perm {s1 s2 : List (Nat × Nat)} (h : s1.Perm s2) :
    cpg_list s1 = cpg_list s2 :=
  sortNat_eq_of_perm ((h.filter _).map _)

theorem cycle_list_congr_perm {s1 s2 : List (Nat × Nat)} (h : s1.Perm s2) :
    cycle_list s1 = cycle_list s2 :=
  sortNat_eq_of_perm (h.map _)

theorem total_cycles_congr_perm {s1 s2 : List (Nat × Nat)} (h : s1.Perm s2) :
    total_cycles s1 = total_cycles s2 :=
  (h.map Prod.fst).sum_eq

/-- The summary-row computation only depends on the multiset of
observations in the counter's series (count, sum and the sorted lists are
permutation-invariant). -/
theorem rowFor_congr_perm (name : String) {s1 s2 : List (Nat × Nat)}
    (h : s1.Perm s2) : rowFor name s1 = rowFor name s2 := by
  unfold rowFor
  rw [cpg_list_congr_perm h, cycle_list_congr_perm h, h.length_eq,
    total_cycles_congr_perm h]

/-- Permuting the artifact list permutes each counter's accumulated
series. -/
theorem seriesOf_perm {arts1 arts2 : List Artifact} (h : arts1.Perm arts2)
    (name : String) : (seriesOf arts1 name).Perm (seriesOf arts2 name) :=
  h.flatMap_right _

/-! ## Claim theorems -/

/-- C3: for every sorted-list argument of even positive length the
statistics engine's median is the floor of the (rational) average of the
two middle elements, and for odd length it is the exact middle element;
the result is a natural number (no floating-point interpolation). -/
theorem median_sorted_floor_avg (s : List Nat) :
    (s.length % 2 = 0 → 0 < s.length →
      median_sorted s =
        Nat.floor (((s.getD (s.length / 2 - 1) 0 : ℚ) +
          (s.getD (s.length / 2) 0 : ℚ)) / 2)) ∧
    (s.length % 2 = 1 → median_sorted s = s.getD (s.length / 2) 0) := by
  constructor
  · intro he _
    have hcast : ((s.getD (s.length / 2 - 1) 0 : ℚ) + (s.getD (s.length / 2) 0 : ℚ))
        = ((s.getD (s.length / 2 - 1) 0 + s.getD (s.length / 2) 0 : ℕ) : ℚ) := by
      push_cast
      ring
    have h2 : ((2 : ℚ)) = ((2 : ℕ) : ℚ) := by norm_num
    rw [hcast, h2, Nat.floor_div_eq_div]
    simp [median_sorted, he]
  · intro ho
    have hne : ¬ s.length % 2 = 0 := by omega
    simp [median_sorted, hne]

/-- C3 witness: the spec's own examples, `[1,2,3,4]` and `[1,2,3]`. -/
theorem median_sorted_floor_avg_witness :
    median_sorted [1, 2, 3, 4] =
      Nat.floor (((([1, 2, 3, 4] : List Nat).getD (([1, 2, 3, 4] : List Nat).length / 2 - 1) 0 : ℚ) +
        (([1, 2, 3, 4] : List Nat).getD (([1, 2, 3, 4] : List Nat).length / 2) 0 : ℚ)) / 2) ∧
    median_sorted [1, 2, 3] = ([1, 2, 3] : List Nat).getD (([1, 2, 3] : List Nat).length / 2) 0 :=
  ⟨(median_sorted_floor_avg [1, 2, 3, 4]).1 (by decide) (by decide),
   (median_sorted_floor_avg [1, 2, 3]).2 (by decide)⟩

/-- C4: appending a zero-gas observation `(c, 0)` to a counter's series
leaves the cpg list unchanged (1st conjunct: the division is never
performed for it), while its cycles value still enters the sorted cycle
list that min/median/max are read from (2nd and 3rd conjuncts) and the
total (4th conjunct); and every cpg value is `cycles / gas` (floor
division) of some observation of the series with `gas > 0` (5th
conjunct). -/
theorem zero_gas_excluded (s : List (Nat × Nat)) (c : Nat) :
    cpg_list (s ++ [(c, 0)]) = cpg_list s ∧
    (cycle_list (s ++ [(c, 0)])).Perm (c :: cycle_list s) ∧
    c ∈ cycle_list (s ++ [(c, 0)]) ∧
    total_cycles (s ++ [(c, 0)]) = total_cycles s + c ∧
    (∀ x ∈ cpg_list s, ∃ p ∈ s, 0 < p.2 ∧ x = p.1 / p.2) := by
  have hmap : (s ++ [(c, 0)]).map Prod.fst = s.map Prod.fst ++ [c] := by simp
  have hperm : (cycle_list (s ++ [(c, 0)])).Perm (c :: cycle_list s) := by
    unfold cycle_list
    rw [hmap]
    exact (sortNat_perm _).trans
      ((List.perm_append_singleton c _).trans ((sortNat_perm _).symm.cons c))
  refine ⟨?_, hperm, ?_, ?_, ?_⟩
  · simp [cpg_list]
  · exact hperm.mem_iff.mpr (List.mem_cons_self c _)
  · simp [total_cycles]
  · intro x hx
    simp only [cpg_list, sortNat, List.mem_insertionSort, List.mem_map,
      List.mem_filter, decide_eq_true_eq] at hx
    obtain ⟨p, ⟨hps, hp2⟩, rfl⟩ := hx
    exact ⟨p, hps, hp2, rfl⟩

/-- C4 witness: the spec's zero-gas scenario, observation `(100, 0)`
appended to a series `[(10, 2)]`. -/
theorem zero_gas_excluded_witness :
    cpg_list ([((10 : Nat), (2 : Nat))] ++ [(100, 0)]) = cpg_list [(10, 2)] ∧
    (100 : Nat) ∈ cycle_list ([((10 : Nat), (2 : Nat))] ++ [(100, 0)]) ∧
    total_cycles ([((10 : Nat), (2 : Nat))] ++ [(100, 0)]) = total_cycles [(10, 2)] + 100 :=
  ⟨(zero_gas_excluded [(10, 2)] 100).1,
   (zero_gas_excluded [(10, 2)] 100).2.2.1,
   (zero_gas_excluded [(10, 2)] 100).2.2.2.1⟩

/-- C5: merging a permutation of the same artifacts yields the same
summary row for every counter — the final statistics do not depend on the
order in which artifacts are merged. -/
theorem merge_commutative (arts1 arts2 : List Artifact)
    (h : arts1.Perm arts2) (name : String) :
    rowFor name (seriesOf arts1 name) = rowFor name (seriesOf arts2 name) :=
  rowFor_congr_perm name (seriesOf_perm h name)

/-- C5 witness: the spec's two KECCAK artifacts merged in both orders. -/
theorem merge_commutative_witness :
    rowFor "KECCAK"
        (seriesOf ([[("KECCAK", [(10, 2), (20, 4)])], [("KECCAK", [(30, 5)])]] : List Artifact) "KECCAK") =
      rowFor "KECCAK"
        (seriesOf ([[("KECCAK", [(30, 5)])], [("KECCAK", [(10, 2), (20, 4)])]] : List Artifact) "KECCAK") :=
  merge_commutative _ _ (by decide) "KECCAK"

/-- C6: merging the same artifact twice is additive, not idempotent: the
accumulated series is the single-merge series concatenated with itself,
so every counter of the artifact ends with exactly twice the observation
count and twice the total cycles of a single merge. -/
theorem double_merge_additive (a : Artifact) (name : String) :
    seriesOf [a, a] name = seriesOf [a] name ++ seriesOf [a] name ∧
    (seriesOf [a, a] name).length = 2 * (seriesOf [a] name).length ∧
    total_cycles (seriesOf [a, a] name) = 2 * total_cycles (seriesOf [a] name) := by
  have h : seriesOf [a, a] name = seriesOf [a] name ++ seriesOf [a] name := by
    simp [seriesOf]
  refine ⟨h, ?_, ?_⟩
  · rw [h, List.length_append, two_mul]
  · rw [h]
    simp [total_cycles, two_mul]

/-- C1 counterexample: the series `[(5, 0), (7, 1)]` has one qualifying
(gas > 0) observation, but the emitted `count` cell is 2, the total
observation count — the `count` cell is `len(cycle_arr)` (line 93), not
the cpg-list length. -/
theorem count_neq_cpg_len_cex :
    (rowFor "K" ([(5, 0), (7, 1)] : List (Nat × Nat))).map Row.count = .ok 2 ∧
    (cpg_list ([(5, 0), (7, 1)] : List (Nat × Nat))).length = 1 ∧
    (rowFor "K" ([(5, 0), (7, 1)] : List (Nat × Nat))).map Row.count ≠
      .ok (cpg_list ([(5, 0), (7, 1)] : List (Nat × Nat))).length := by
  decide

/-- C1 amended: the `count` cell of every emitted summary row equals the
counter's total observation count (the length of its cycles list),
zero-gas observations included — not the length of the cpg list. -/
theorem count_is_total_observations (name : String) (s : List (Nat × Nat))
    (h : s ≠ []) :
    (rowFor name s).map Row.count = .ok s.length ∧
    (cycle_list s).length = s.length := by
  have hlen : (cycle_list s).length = s.length := by
    simp [cycle_list, sortNat, List.length_insertionSort]
  have hcyc : ¬ cycle_list s = [] := by
    intro hc
    rw [hc] at hlen
    exact h (List.eq_nil_of_length_eq_zero hlen.symm)
  refine ⟨?_, hlen⟩
  simp only [rowFor]
  rw [if_neg hcyc]
  rfl

/-- C1 witness for the amended claim, at the counterexample's series. -/
theorem count_is_total_observations_witness :
    (rowFor "K" ([(5, 0), (7, 1)] : List (Nat × Nat))).map Row.count =
      .ok ([(5, 0), (7, 1)] : List (Nat × Nat)).length ∧
    (cycle_list ([(5, 0), (7, 1)] : List (Nat × Nat))).length =
      ([(5, 0), (7, 1)] : List (Nat × Nat)).length :=
  count_is_total_observations "K" _ (by decide)

/-- C2: a counter whose cpg list is empty but whose cycles list is
non-empty does get a row with the sentinel cpg triple and full cycle
statistics (1st conjunct), but a counter whose cycles list is empty is
*not* omitted: it is still iterated, its row computation subscripts an
empty list, and the whole report fails — with `IndexError` once the
undefined names are resolved (2nd conjunct), and with `NameError('array')`
under the strict semantics of the file as written (3rd conjunct). -/
theorem empty_series_row_not_omitted :
    rowFor "Z" ([(100, 0)] : List (Nat × Nat)) =
      .ok ⟨"Z", 1, none, none, none, 100, 100, 100, 100⟩ ∧
    analyze_traces_fixed ([[("EMPTY", []), ("K", [(10, 2)])]] : List Artifact) =
      .error .indexError ∧
    analyze_traces_strict ([[("EMPTY", []), ("K", [(10, 2)])]] : List Artifact) =
      .error (.nameError "array") := by
  decide

/-- If every decoded trace is the empty mapping, the strict loading loop
never touches the `defaultdict` factory and returns no accumulated
counters. -/
theorem loadStrict_all_empty (arts : List Artifact)
    (h : ∀ a ∈ arts, a = []) :
    arts.foldlM loadArtifactStrict ([] : List String) = .ok [] := by
  induction arts with
  | nil => rfl
  | cons a rest ih =>
    have ha : a = [] := h a (List.mem_cons_self _ _)
    subst ha
    simp only [List.foldlM_cons]
    have h0 : loadArtifactStrict ([] : List String) ([] : Artifact) = .ok [] := rfl
    rw [h0]
    exact ih (fun x hx => h x (List.mem_cons_of_mem _ hx))

/-- As soon as some decoded trace has an item, the first
`cycle_data[name]` access runs the `array('Q')` factory and raises
`NameError('array')`. -/
theorem loadStrict_nonempty_err (arts : List Artifact)
    (h : ∃ a ∈ arts, a ≠ []) :
    arts.foldlM loadArtifactStrict ([] : List String) =
      .error (.nameError "array") := by
  induction arts with
  | nil =>
    obtain ⟨a, ha, _⟩ := h
    exact absurd ha (List.not_mem_nil a)
  | cons a rest ih =>
    cases a with
    | nil =>
      have hrest : ∃ b ∈ rest, b ≠ [] := by
        obtain ⟨b, hb, hbne⟩ := h
        rcases List.mem_cons.mp hb with rfl | hbr
        · exact absurd rfl hbne
        · exact ⟨b, hbr, hbne⟩
      simp only [List.foldlM_cons]
      have h0 : loadArtifactStrict ([] : List String) ([] : Artifact) = .ok [] := rfl
      rw [h0]
      exact ih hrest
    | cons p tail => rfl

/-- C10: on the file as written, any run whose decoded traces contain at
least one counter with at least one observation makes `analyze_traces`
raise an uncaught `NameError` (on `array`) before any report row is
written; a run completes only when no counter at all is accumulated, and
then emits exactly the header row. -/
theorem analyze_traces_raises_nameerror :
    (∀ arts : List Artifact, (∃ a ∈ arts, ∃ p ∈ a, p.2 ≠ []) →
      analyze_traces_strict arts = .error (.nameError "array")) ∧
    (∀ arts : List Artifact, (∀ a ∈ arts, a = []) →
      analyze_traces_strict arts = .ok [headerRow]) := by
  constructor
  · intro arts h
    obtain ⟨a, ha, p, hp, _⟩ := h
    have hne : ∃ b ∈ arts, b ≠ [] :=
      ⟨a, ha, fun hnil => by rw [hnil] at hp; exact absurd hp (List.not_mem_nil p)⟩
    unfold analyze_traces_strict
    rw [loadStrict_nonempty_err arts hne]
  · intro arts h
    unfold analyze_traces_strict
    rw [loadStrict_all_empty arts h]
    rfl

/-- C10 witness: a one-observation trace crashes; two empty traces yield
the header-only report. -/
theorem analyze_traces_raises_nameerror_witness :
    analyze_traces_strict ([[("K", [(10, 2)])]] : List Artifact) =
      .error (.nameError "array") ∧
    analyze_traces_strict ([[], []] : List Artifact) = .ok [headerRow] :=
  ⟨analyze_traces_raises_nameerror.1 _ (by decide),
   analyze_traces_raises_nameerror.2 _ (by decide)⟩

/-! ## Execution orchestration (`run_trace` lines 18-38, `main` lines 106-127;
the same collect-successes shape as `run_benchmark` in `scripts/benchmark.py`
lines 71-113).  The external CLI invocation is abstracted as a per-unit
outcome function: `.ok` is a zero exit with the decoded artifact the run
wrote to its trace file, `.error` is a `CalledProcessError` carrying the
captured standard error. -/

/-- Model of `run_trace` (lines 18-38): try the invocation; on success return the
produced artifact, on `CalledProcessError` return `None`. -/
def run_trace (outcome : String → Except String Artifact) (file : String) :
    Option Artifact :=
  match outcome file with
  | .ok art => some art
  | .error _ => none

/-- The standard-error lines printed by failed units (line 37), in unit
order. -/
def failure_logs (outcome : String → Except String Artifact)
    (files : List String) : List String :=
  files.filterMap (fun f => match outcome f with
    | .error e => some e
    | .ok _ => none)

/-- Model of the `generated_files` accumulation of `main` (lines 118-121): the results of
`executor.map(run_trace, files)` in input order, keeping only the
non-`None` ones. -/
def generated_files (outcome : String → Except String Artifact)
    (files : List String) : List Artifact :=
  (files.map (run_trace outcome)).filterMap id

/-- The final step of `main` (line 123): analyze exactly the collected
artifacts. -/
def pipeline_report (outcome : String → Except String Artifact)
    (files : List String) : Except PyErr (List Row) :=
  analyze_traces_fixed (generated_files outcome files)

/-- C7: a unit whose invocation exits non-zero contributes its standard
error to the logs, is excluded from the collected artifacts, and leaves
every other unit's contribution unchanged; the report is computed from
exactly the successful units' artifacts. -/
theorem failure_isolation (outcome : String → Except String Artifact)
    (xs ys : List String) (u : String) (e : String)
    (h : outcome u = .error e) :
    generated_files outcome (xs ++ u :: ys) =
      generated_files outcome xs ++ generated_files outcome ys ∧
    e ∈ failure_logs outcome (xs ++ u :: ys) ∧
    pipeline_report outcome (xs ++ u :: ys) =
      analyze_traces_fixed
        (generated_files outcome xs ++ generated_files outcome ys) := by
  have hnone : run_trace outcome u = none := by simp [run_trace, h]
  have hgen : generated_files outcome (xs ++ u :: ys) =
      generated_files outcome xs ++ generated_files outcome ys := by
    simp [generated_files, List.map_append, List.filterMap_append, hnone]
  refine ⟨hgen, ?_, ?_⟩
  · have hlog : failure_logs outcome (xs ++ u :: ys) =
        failure_logs outcome xs ++ e :: failure_logs outcome ys := by
      simp [failure_logs, List.filterMap_append, h]
    rw [hlog]
    exact List.mem_append_right _ (List.mem_cons_self _ _)
  · unfold pipeline_report
    rw [hgen]

/-- A concrete five-unit batch in which exactly unit `"block3"` fails. -/
def demoOutcome : String → Except String Artifact :=
  fun f => if f = "block3" then .error "exited with status 1"
    else .ok [("KECCAK", [(10, 2)])]

/-- C7 witness: the five-unit batch with unit 3 failing. -/
theorem failure_isolation_witness :
    generated_files demoOutcome (["block1", "block2"] ++ "block3" :: ["block4", "block5"]) =
      generated_files demoOutcome ["block1", "block2"] ++
        generated_files demoOutcome ["block4", "block5"] ∧
    "exited with status 1" ∈
      failure_logs demoOutcome (["block1", "block2"] ++ "block3" :: ["block4", "block5"]) ∧
    pipeline_report demoOutcome (["block1", "block2"] ++ "block3" :: ["block4", "block5"]) =
      analyze_traces_fixed
        (generated_files demoOutcome ["block1", "block2"] ++
          generated_files demoOutcome ["block4", "block5"]) :=
  failure_isolation demoOutcome ["block1", "block2"] ["block4", "block5"]
    "block3" "exited with status 1" (by decide)

/-! ## Telemetry decoding (lines 47-57): `gzip.open` + `json.load` per
artifact, inside the sequential loading loop, with no exception handler. -/

/-- A parsed JSON document. -/
inductive Json : Type where
  | null
  | bool (b : Bool)
  | num (n : Int)
  | str (s : String)
  | arr (elems : List Json)
  | obj (fields : List (String × Json))

/-- One observation entry: must be a 2-element array of non-negative
integers `[cycles, gas]` (the artifact format of the telemetry contract;
anything else fails the per-artifact decode). -/
def decodeEntry : Json → Except PyErr (Nat × Nat)
  | .arr [.num c, .num g] =>
      if 0 ≤ c ∧ 0 ≤ g then .ok (c.toNat, g.toNat) else .error .jsonError
  | _ => .error .jsonError

/-- A counter's value must be an array of observation entries. -/
def decodeSeries : Json → Except PyErr (List (Nat × Nat))
  | .arr entries => mapE decodeEntry entries
  | _ => .error .jsonError

/-- The payload must be a mapping from counter names to observation
sequences. -/
def decodeArtifact : Json → Except PyErr Artifact
  | .obj fields =>
    mapE (fun p =>
      match decodeSeries p.2 with
      | .error e => .error e
      | .ok es => .ok (p.1, es)) fields
  | _ => .error .jsonError

/-- Decoding one artifact file: `none` models a gzip stream that fails to
decompress, `some j` a stream that decompresses to the JSON document `j`. -/
def decodeFile : Option Json → Except PyErr Artifact
  | none => .error .gzipError
  | some j => decodeArtifact j

/-- Model of `analyze_traces` from the artifact files: the loading loop decodes
artifacts one by one with no `try`/`except`, so the first decode failure
propagates out of the whole analysis; only if all files decode does the
report get computed. -/
def analyze_traces_files (files : List (Option Json)) :
    Except PyErr (List Row) :=
  match mapE decodeFile files with
  | .error e => .error e
  | .ok arts => analyze_traces_fixed arts

/-- A well-formed artifact file with one KECCAK-style counter `K`. -/
def goodFile1 : Option Json :=
  some (.obj [("K", .arr [.arr [.num 10, .num 2]])])

/-- A second well-formed artifact file with counter `L`. -/
def goodFile2 : Option Json :=
  some (.obj [("L", .arr [.arr [.num 30, .num 5]])])

/-- C8 counterexample: with a corrupt artifact between two good ones the
analysis returns the decode error and no report at all — the two good
artifacts are not aggregated — whereas the same run without the corrupt
artifact produces their full report. -/
theorem corrupt_artifact_aborts_cex :
    analyze_traces_files [goodFile1, none, goodFile2] = .error .gzipError ∧
    analyze_traces_files [goodFile1, goodFile2] =
      .ok [⟨"K", 1, some 5, some 5, some 5, 10, 10, 10, 10⟩,
           ⟨"L", 1, some 6, some 6, some 6, 30, 30, 30, 30⟩] := by
  decide

/-- C8 amended: a decompression or parse failure of one artifact is not
caught anywhere: however many artifacts decoded before it and however many
are still pending, the whole aggregation aborts with that artifact's
error and produces no report. -/
theorem mapE_append_error {A B : Type} (f : A -> Except PyErr B)
    (xs ys : List A) (bad : A) (res : List B) (e : PyErr)
    (h1 : mapE f xs = .ok res) (h2 : f bad = .error e) :
    mapE f (xs ++ bad :: ys) = .error e := by
  induction xs generalizing res with
  | nil => simp [mapE, h2]
  | cons x xs ih =>
    simp only [List.cons_append, mapE] at h1 ⊢
    cases hfx : f x with
    | error e2 => simp [hfx] at h1
    | ok y =>
      simp only [hfx] at h1 ⊢
      cases hm : mapE f xs with
      | error e2 => simp [hm] at h1
      | ok res2 =>
        simp [ih res2 hm]

theorem corrupt_artifact_aborts (xs ys : List (Option Json))
    (bad : Option Json) (arts : List Artifact) (e : PyErr)
    (h1 : mapE decodeFile xs = .ok arts) (h2 : decodeFile bad = .error e) :
    analyze_traces_files (xs ++ bad :: ys) = .error e := by
  unfold analyze_traces_files
  rw [mapE_append_error decodeFile xs ys bad arts e h1 h2]

/-- C8 witness for the amended claim, at the counterexample's input. -/
theorem corrupt_artifact_aborts_witness :
    analyze_traces_files ([goodFile1] ++ none :: [goodFile2]) =
      .error .gzipError :=
  corrupt_artifact_aborts [goodFile1] [goodFile2] none
    [[("K", [(10, 2)])]] .gzipError (by decide) (by decide)

/-! ## Report row ordering -/

/-- All counter names touched by the loading loop, in touch order
(artifact by artifact, item by item), duplicates included. -/
def namesTouched (arts : List Artifact) : List String :=
  arts.flatMap (fun a => a.map Prod.fst)

/-- The dict insertion order is the fold of `insertName` over the touch
order of the names. -/
theorem namesOrder_eq_foldl (arts : List Artifact) :
    namesOrder arts = (namesTouched arts).foldl insertName [] := by
  suffices h : ∀ (arts : List Artifact) (acc : List String),
      arts.foldl (fun acc a => a.foldl (fun acc p => insertName acc p.1) acc) acc =
        (namesTouched arts).foldl insertName acc from h arts []
  intro arts
  induction arts with
  | nil => intro acc; rfl
  | cons a rest ih =>
    intro acc
    simp only [List.foldl_cons, namesTouched, List.flatMap_cons, List.foldl_append]
    rw [List.foldl_map]
    exact ih _

/-- Folding `insertName` from an arbitrary already-inserted prefix `acc`
appends exactly the from-scratch result, filtered to the names not already
present. -/
theorem foldl_insertName_append (l : List String) :
    ∀ acc : List String, l.foldl insertName acc =
      acc ++ (l.foldl insertName []).filter (fun n => !decide (n ∈ acc)) := by
  induction l with
  | nil => intro acc; simp
  | cons x rest ih =>
    intro acc
    simp only [List.foldl_cons]
    have h0 : insertName ([] : List String) x = [x] := by simp [insertName]
    rw [ih (insertName acc x), h0, ih [x]]
    by_cases hx : x ∈ acc
    · have h1 : insertName acc x = acc := by simp [insertName, hx]
      rw [h1, List.filter_append]
      have h4 : ([x] : List String).filter (fun n => !decide (n ∈ acc)) = [] := by
        simp [hx]
      rw [h4, List.nil_append, List.filter_filter]
      congr 1
      apply List.filter_congr
      intro n _
      by_cases hn : n ∈ acc
      · simp [hn]
      · have hnx : ¬ n = x := fun he => hn (he ▸ hx)
        simp [hn, hnx]
    · have h1 : insertName acc x = acc ++ [x] := by simp [insertName, hx]
      rw [h1, List.filter_append]
      have h3 : ([x] : List String).filter (fun n => !decide (n ∈ acc)) = [x] := by
        simp [hx]
      rw [h3, List.filter_filter, ← List.append_assoc]
      congr 1
      apply List.filter_congr
      intro n _
      by_cases hn : n ∈ acc
      · simp [hn]
      · by_cases hnx : n = x <;> simp [hn, hnx]

/-- The `insertName` fold keeps the accumulated key list duplicate-free. -/
theorem foldl_insertName_nodup (l : List String) :
    ∀ acc : List String, acc.Nodup → (l.foldl insertName acc).Nodup := by
  induction l with
  | nil => intro acc h; exact h
  | cons x rest ih =>
    intro acc h
    apply ih
    by_cases hx : x ∈ acc
    · simpa [insertName, hx] using h
    · rw [insertName, if_neg hx]
      refine h.append (List.nodup_singleton x) ?_
      intro n hn hnx
      rw [List.mem_singleton] at hnx
      exact hx (hnx ▸ hn)

/-- C9 counterexample: two single-counter artifacts named `"b"` and `"a"`.
Merged as `[b-artifact, a-artifact]` the data rows come out in order
`["b", "a"]`; merged in the opposite order they come out `["a", "b"]` —
the emission order follows dict insertion order (line 77), so it depends
on the merge order and is not sorted by counter name. -/
theorem report_order_not_sorted_cex :
    (analyze_traces_fixed ([[("b", [(1, 1)])], [("a", [(1, 1)])]] : List Artifact)).map
        (List.map Row.name) = .ok ["b", "a"] ∧
    (analyze_traces_fixed ([[("a", [(1, 1)])], [("b", [(1, 1)])]] : List Artifact)).map
        (List.map Row.name) = .ok ["a", "b"] ∧
    namesOrder ([[("b", [(1, 1)])], [("a", [(1, 1)])]] : List Artifact) ≠
      namesOrder ([[("a", [(1, 1)])], [("b", [(1, 1)])]] : List Artifact) := by
  decide

/-- C9 amended: rows are emitted one per accumulated counter, without
duplicates, in the order each counter name is first touched during the
merge (dict insertion order): the names of a later batch of artifacts
follow all names of an earlier batch, filtered to those not already seen.
This order depends on the artifact merge order and need not be sorted. -/
theorem report_order_first_appearance :
    (∀ arts1 arts2 : List Artifact,
      namesOrder (arts1 ++ arts2) =
        namesOrder arts1 ++
          (namesOrder arts2).filter (fun n => !decide (n ∈ namesOrder arts1))) ∧
    (∀ arts : List Artifact, (namesOrder arts).Nodup) := by
  constructor
  · intro arts1 arts2
    rw [namesOrder_eq_foldl (arts1 ++ arts2), namesOrder_eq_foldl arts1,
      namesOrder_eq_foldl arts2]
    have hsplit : namesTouched (arts1 ++ arts2) =
        namesTouched arts1 ++ namesTouched arts2 := by
      simp [namesTouched]
    rw [hsplit, List.foldl_append]
    exact foldl_insertName_append (namesTouched arts2)
      ((namesTouched arts1).foldl insertName [])
  · intro arts
    rw [namesOrder_eq_foldl]
    exact foldl_insertName_nodup (namesTouched arts) [] List.nodup_nil
